import Mathlib

/-!
# Verification of the vuln-detection extension and its scan-engine contract

Shallow embedding of the `vuln-detection` VS Code extension
(`extension.js` and its revised variant) together with a model of the
pattern-matching scan engine (`detector.py`) described by the design
document.  The extension-side functions (`activate` language dispatch,
`tryPythonCommand` transport loop, the results renderer and its
`escapeHtml`) are translated directly from the JavaScript source; the
scan engine itself is not part of the source tree, so it is modelled
from the specification where a claim needs it.
-/

namespace VulnDetect

/-- A single reported finding, as carried in the response payload
`{ vulnerability, severity, lines, explanation, patch }`. -/
structure Finding where
  vulnerability : String
  severity : String
  lines : List Nat
  explanation : String
  patch : String
deriving Repr, DecidableEq

/-- The response payload `{ language, results }` produced by the detector
and consumed by the renderer. -/
structure Response where
  language : String
  results : List Finding
deriving Repr, DecidableEq

/-! ## Language dispatch in `activate` (extension.js lines 27-44) -/

/-- The `languageMap` object of `activate`: maps a VS Code language id to
the detector language, `none` when the id is not a key of the map
(JavaScript property lookup yielding `undefined`). -/
def languageMap (languageId : String) : Option String :=
  if languageId = "python" then some "python"
  else if languageId = "javascript" then some "javascript"
  else if languageId = "javascriptreact" then some "javascript"
  else if languageId = "typescript" then some "javascript"
  else if languageId = "typescriptreact" then some "javascript"
  else none

/-- The whitespace class stripped by the JavaScript `String.prototype.trim`
(ASCII whitespace plus no-break space, BOM and the Unicode line
separators; the Zs space block is elided). -/
def isJsSpace (c : Char) : Bool :=
  c = ' ' || c = '\t' || c = '\n' || c = '\x0b' || c = '\x0c' || c = '\r' ||
    c = '\u00A0' || c = '\uFEFF' || c = '\u2028' || c = '\u2029'

/-- The JavaScript `selectedText.trim()`: leading and trailing whitespace
removed. -/
def jsTrim (s : String) : String :=
  String.mk (((s.data.dropWhile isJsSpace).reverse.dropWhile isJsSpace).reverse)

/-- Outcome of the command callback registered by `activate`: which
user-visible action the callback takes before (or instead of) running the
engine. -/
inductive ActivateOutcome where
  | noEditor
  | emptySelection
  | unsupportedLanguage (message : String)
  | runAnalysis (code : String) (language : String)
deriving Repr, DecidableEq

/-- The guard sequence of the `vulnDetection.analyze` command callback in
`activate`: no active editor, then empty/blank selection, then the
`languageMap` lookup with the `Language "..." is not supported` warning,
and only then the call into `analyzeCode`. -/
def activateDispatch (hasEditor : Bool) (selectedText : String)
    (languageId : String) : ActivateOutcome :=
  if !hasEditor then .noEditor
  else if selectedText = "" ∨ jsTrim selectedText = "" then .emptySelection
  else
    match languageMap languageId with
    | none => .unsupportedLanguage
        ("Language \"" ++ languageId ++
          "\" is not supported. Only Python and JavaScript are currently supported.")
    | some language => .runAnalysis selectedText language

/-! ## Transport layer: `tryPythonCommand` (extension.js lines 85-127) -/

/-- Settlement of the promise created by `analyzeCode`: `resolved` with the
parsed detector output, or `rejected` with an `Error` message. -/
inductive CloseOutcome (α : Type) where
  | resolved (value : α)
  | rejected (message : String)
deriving Repr, DecidableEq

/-- What spawning one candidate interpreter does: the process either emits
`error` (command not found), or eventually emits `close` with an exit code
and the accumulated stdout/stderr text. -/
inductive SpawnResult where
  | spawnError
  | closed (exitCode : Int) (stdout : String) (stderr : String)
deriving Repr, DecidableEq

/-- The `close` handler of `tryPythonCommand`: exit code 0 means parse
stdout (resolve on success, reject with the parse-failure message
otherwise); any other exit code rejects with a message built from the exit
code and the accumulated stderr.  `JSON.parse` is a platform builtin, so it
is abstracted as the `parse` argument; `parse = none` models the throwing
branch. -/
def onClose {α : Type} (parse : String → Option α) (exitCode : Int)
    (stdout stderr : String) : CloseOutcome α :=
  if exitCode = 0 then
    match parse stdout with
    | some value => .resolved value
    | none => .rejected ("Failed to parse detector output: " ++ stdout)
  else
    .rejected ("Detector exited with code " ++ toString exitCode ++ ": " ++ stderr)

/-- The rejection message used when every candidate interpreter fails to
spawn (`index >= commands.length`). -/
def pythonMissingMessage : String :=
  "Python is not installed or not in PATH. Please install Python 3.x."

/-- `tryPythonCommand`, with the `(commands, index)` pair of the source
represented by the suffix `commands.drop index` (the guard
`index >= commands.length` is the `[]` case).  `env` gives the behaviour
of spawning each candidate: the `error` event advances to the next
candidate, the `close` event settles via `onClose`. -/
def tryPythonCommand {α : Type} (parse : String → Option α)
    (env : String → SpawnResult) : List String → CloseOutcome α
  | [] => .rejected pythonMissingMessage
  | cmd :: rest =>
    match env cmd with
    | .spawnError => tryPythonCommand parse env rest
    | .closed exitCode stdout stderr => onClose parse exitCode stdout stderr

/-- The candidate list `['python', 'python3', 'py']` of `analyzeCode`. -/
def pythonCommands : List String := ["python", "python3", "py"]

/-- Number of spawn attempts `tryPythonCommand` performs on a candidate
list: one per candidate until (and including) the first whose process does
not error at spawn. -/
def spawnAttempts (env : String → SpawnResult) : List String → Nat
  | [] => 0
  | cmd :: rest =>
    match env cmd with
    | .spawnError => 1 + spawnAttempts env rest
    | .closed _ _ _ => 1

/-! ## Request serialization: `JSON.stringify({ code, language })`
(extension.js lines 123-126) -/

/-- Lower hex digit for `\u00XX` escapes. -/
def hexDigit (n : Nat) : Char :=
  if n = 0 then '0' else if n = 1 then '1' else if n = 2 then '2'
  else if n = 3 then '3' else if n = 4 then '4' else if n = 5 then '5'
  else if n = 6 then '6' else if n = 7 then '7' else if n = 8 then '8'
  else if n = 9 then '9' else if n = 10 then 'a' else if n = 11 then 'b'
  else if n = 12 then 'c' else if n = 13 then 'd' else if n = 14 then 'e'
  else 'f'

/-- Per-character escaping performed by `JSON.stringify` on string values:
quote and backslash are backslash-escaped, the named control characters get
their short escapes, remaining control characters become `\u00XX`, and
every other character is emitted verbatim. -/
def jsonEscapeChar (c : Char) : List Char :=
  if c = '"' then ['\\', '"']
  else if c = '\\' then ['\\', '\\']
  else if c = '\x08' then ['\\', 'b']
  else if c = '\x09' then ['\\', 't']
  else if c = '\x0a' then ['\\', 'n']
  else if c = '\x0c' then ['\\', 'f']
  else if c = '\x0d' then ['\\', 'r']
  else if c.toNat < 0x20 then
    ['\\', 'u', '0', '0', hexDigit (c.toNat / 16), hexDigit (c.toNat % 16)]
  else [c]

/-- `JSON.stringify` applied to one string value: the escaped character
sequence wrapped in double quotes. -/
def jsonQuote (s : String) : String :=
  "\"" ++ String.mk (s.data.flatMap jsonEscapeChar) ++ "\""

/-- The request payload `JSON.stringify({ code, language })` written to the
detector's stdin: an object with exactly the two fields `code` and
`language`, in shorthand-property order. -/
def requestPayload (code language : String) : String :=
  "\x7b\"code\":" ++ jsonQuote code ++ ",\"language\":" ++ jsonQuote language ++ "\x7d"

/-- One action performed on the child process's stdin stream. -/
inductive StdinAction where
  | write (data : String)
  | endStream
deriving Repr, DecidableEq

/-- The stdin interaction of `tryPythonCommand` with one spawned detector
process: `stdin.write(input)` followed by `stdin.end()`. -/
def stdinScript (code language : String) : List StdinAction :=
  [.write (requestPayload code language), .endStream]

/-- Counts the `write` actions in a stdin script. -/
def writeCount : List StdinAction → Nat
  | [] => 0
  | .write _ :: rest => 1 + writeCount rest
  | .endStream :: rest => writeCount rest

/-! A small JSON reader used only to state that `requestPayload` really is
the serialization of an object with exactly the fields `code` and
`language`: reading the payload back recovers the two field values. -/

/-- Reads a JSON string body (the part after the opening quote) up to its
closing quote, undoing `jsonEscapeChar`; returns the decoded characters and
the remaining input. -/
def readJsonChars : List Char → Option (List Char × List Char)
  | [] => none
  | c :: rest =>
    if c = '"' then some ([], rest)
    else if c = '\\' then
      match rest with
      | [] => none
      | e :: rest2 =>
        if e = 'u' then
          match rest2 with
          | '0' :: '0' :: h :: l :: rest3 =>
            (readJsonChars rest3).map fun p =>
              (Char.ofNat (16 * hexToNat h + hexToNat l) :: p.1, p.2)
          | _ => none
        else
          match unescapeChar e with
          | some d => (readJsonChars rest2).map fun p => (d :: p.1, p.2)
          | none => none
    else (readJsonChars rest).map fun p => (c :: p.1, p.2)
where
  /-- Value of a lower-case hex digit. -/
  hexToNat (c : Char) : Nat :=
    if c.toNat ≥ 'a'.toNat then c.toNat - 'a'.toNat + 10 else c.toNat - '0'.toNat
  /-- Decodes the character following a backslash. -/
  unescapeChar (e : Char) : Option Char :=
    if e = '"' then some '"'
    else if e = '\\' then some '\\'
    else if e = 'b' then some '\x08'
    else if e = 't' then some '\x09'
    else if e = 'n' then some '\x0a'
    else if e = 'f' then some '\x0c'
    else if e = 'r' then some '\x0d'
    else none

/-- Strips an expected literal from the front of the input. -/
def readLiteral : List Char → List Char → Option (List Char)
  | [], rest => some rest
  | _ :: _, [] => none
  | e :: es, c :: cs => if e = c then readLiteral es cs else none

/-- Reads back a payload of the exact shape
`{"code":<string>,"language":<string>}` and returns the two field values;
any other shape yields `none`. -/
def readRequestPayload (payload : String) : Option (String × String) :=
  (readLiteral "\x7b\"code\":\"".data payload.data).bind fun r1 =>
    (readJsonChars r1).bind fun p1 =>
      (readLiteral ",\"language\":\"".data p1.2).bind fun r3 =>
        (readJsonChars r3).bind fun p2 =>
          if p2.2 = ['\x7d'] then some (String.mk p1.1, String.mk p2.1)
          else none

/-! ## The results renderer `getResultsHtml` (revised extension source,
lines 151-355) -/

/-- Global single-character regex replacement `str.replace(/c/g, r)`: every
occurrence of the character `c` is replaced by the string `r`. -/
def replaceChar (c : Char) (r : String) (s : String) : String :=
  String.mk (s.data.flatMap fun a => if a = c then r.data else [a])

/-- The `escapeHtml` helper of the renderer: the five global replacements of the
source applied in order (`&` first, then `<`, `>`, `"`, the apostrophe). -/
def escapeHtml (str : String) : String :=
  replaceChar '\x27' "&#039;"
    (replaceChar '"' "&quot;"
      (replaceChar '>' "&gt;"
        (replaceChar '<' "&lt;"
          (replaceChar '&' "&amp;" str))))

/-- The `severityColors` lookup object; `none` models an absent key. -/
def severityColors (severity : String) : Option String :=
  if severity = "Critical" then some "#dc2626"
  else if severity = "High" then some "#ea580c"
  else if severity = "Medium" then some "#ca8a04"
  else if severity = "Low" then some "#16a34a"
  else if severity = "Safe" then some "#22c55e"
  else if severity = "N/A" then some "#6b7280"
  else none

/-- `severityColors[vuln.severity] || '#6b7280'`. -/
def severityColor (severity : String) : String :=
  (severityColors severity).getD "#6b7280"

/-- The `lineText` computed for one finding: `Line n` for a single line,
`Lines a, b, ...` for several, empty when no location is known. -/
def lineText (lines : List Nat) : String :=
  if lines.length = 1 then "Line " ++ toString (lines.headD 0)
  else if lines.length > 1 then
    "Lines " ++ String.intercalate ", " (lines.map toString)
  else ""

/-- `vulnCount > 0 && results[0].vulnerability !== 'Error'`. -/
def hasVulnerabilities (results : List Finding) : Bool :=
  match results with
  | [] => false
  | v :: _ => v.vulnerability != "Error"

/-- `vulnCount > 0 && results[0].vulnerability === 'Error'`. -/
def isError (results : List Finding) : Bool :=
  match results with
  | [] => false
  | v :: _ => v.vulnerability == "Error"

/-- The `statusIcon` chosen in the header-info branch. -/
def statusIcon (results : List Finding) : String :=
  if isError results then "\u201A\u00F9\u00E5"
  else if hasVulnerabilities results then "\u201A\u00F6\u2020\u00D4\u220F\u00E8"
  else "\u201A\u00FA\u00D6"

/-- The `statusText` chosen in the header-info branch. -/
def statusText (results : List Finding) : String :=
  if isError results then "Analysis Error"
  else if hasVulnerabilities results then
    toString results.length ++ " " ++
      (if results.length = 1 then "vulnerability" else "vulnerabilities") ++
      " detected"
  else "No vulnerabilities detected"

/-- The `headerColor` chosen in the header-info branch. -/
def headerColor (results : List Finding) : String :=
  if isError results then "#6b7280"
  else if hasVulnerabilities results then "#ea580c"
  else "#22c55e"

/-- The `Issue i of n` banner, emitted only when `vulnCount > 1`. -/
def vulnNumberHtml (index vulnCount : Nat) : String :=
  if vulnCount > 1 then
    "<div class=\"vuln-number\" style=\"font-size: 11px; color: var(--vscode-descriptionForeground); margin-bottom: 8px;\">Issue " ++
        (toString (index + 1)) ++
        " of " ++
        (toString vulnCount) ++
        "</div>"
  else ""

/-- The location badge, emitted only when `lineText` is non-empty. -/
def locationBadgeHtml (lt : String) : String :=
  if lt != "" then
    "<span class=\"location-badge\" style=\"display: inline-flex; align-items: center; gap: 4px; padding: 4px 10px; border-radius: 4px; font-size: 12px; font-weight: 500; background: #3b82f622; color: #3b82f6; border: 1px solid #3b82f644;\">\n                            <span style=\"font-size: 14px;\">\uF8FF\u00FC\u00EC\u00E7</span> " ++
        (escapeHtml lt) ++
        "\n                        </span>"
  else ""

/-- One vulnerability card of the `results.forEach` loop. -/
def vulnCardHtml (index vulnCount : Nat) (vuln : Finding) : String :=
  let sc := severityColor vuln.severity
  let lt := lineText vuln.lines
  "\n            <div class=\"vuln-section\" style=\"margin-bottom: 24px; padding-bottom: 24px; border-bottom: 1px solid var(--vscode-panel-border);\">\n                " ++
    (vulnNumberHtml index vulnCount) ++
    "\n                \n                <div class=\"card\">\n                    <div class=\"card-title\">Vulnerability</div>\n                    <div class=\"vulnerability-name\" style=\"color: " ++
    (sc) ++
    ";\">" ++
    (escapeHtml vuln.vulnerability) ++
    "</div>\n                </div>\n\n                <div class=\"card\">\n                    <div class=\"card-title\">Location & Severity</div>\n                    <div style=\"display: flex; gap: 8px; align-items: center; flex-wrap: wrap;\">\n                        " ++
    (locationBadgeHtml lt) ++
    "\n                        <span class=\"severity-badge\" style=\"background: " ++
    (sc ++ "22") ++
    "; color: " ++
    (sc) ++
    "; border: 1px solid " ++
    (sc ++ "44") ++
    ";\">" ++
    (escapeHtml vuln.severity) ++
    "</span>\n                    </div>\n                </div>\n\n                <div class=\"card\">\n                    <div class=\"card-title\">Explanation</div>\n                    <p class=\"explanation\">" ++
    (escapeHtml vuln.explanation) ++
    "</p>\n                </div>\n\n                <div class=\"card\">\n                    <div class=\"card-title\">Recommended Fix</div>\n                    <pre class=\"patch-code\">" ++
    (escapeHtml vuln.patch) ++
    "</pre>\n                </div>\n            </div>"

/-- Leading part of the safe-state card, up to the safe heading. -/
def safeCardsPre : String :=
  "\n        <div class=\"safe-message\" style=\"text-align: center; padding: 40px 20px;\">\n            <div style=\"font-size: 48px; margin-bottom: 16px;\">\u201A\u00FA\u00D6</div>\n            <h2 style=\"font-size: 18px; font-weight: 600; margin-bottom: 12px; color: #22c55e;\">"

/-- Trailing part of the safe-state card, after the safe heading. -/
def safeCardsPost : String :=
  "</h2>\n            <p style=\"color: var(--vscode-descriptionForeground); max-width: 400px; margin: 0 auto;\">\n                No common vulnerability patterns were detected in this code snippet. \n                Note: This is a pattern-based analysis and may not catch all security issues. \n                Always follow secure coding practices and conduct thorough security reviews.\n            </p>\n        </div>"

/-- The `cardsHtml` accumulator: one card per finding when there is
anything to show, otherwise the static safe-state message. -/
def cardsHtml (results : List Finding) : String :=
  if hasVulnerabilities results || isError results then
    String.join ((results.enum).map fun p => vulnCardHtml p.1 results.length p.2)
  else
    safeCardsPre ++ "Code Appears Safe" ++ safeCardsPost

/-- Static shell of the returned document: document head and styles up to the interpolated header color. -/
def htmlShell0 : String :=
  "<!DOCTYPE html>\n<html lang=\"en\">\n<head>\n    <meta charset=\"UTF-8\">\n    <meta name=\"viewport\" content=\"width=device-width, initial-scale=1.0\">\n    <title>Security Analysis Results</title>\n    <style>\n        * \x7b\n            margin: 0;\n            padding: 0;\n            box-sizing: border-box;\n        \x7d\n        body \x7b\n            font-family: -apple-system, BlinkMacSystemFont, \x27Segoe UI\x27, Roboto, Oxygen, Ubuntu, sans-serif;\n            padding: 20px;\n            background: var(--vscode-editor-background);\n            color: var(--vscode-editor-foreground);\n            line-height: 1.6;\n        \x7d\n        .header \x7b\n            display: flex;\n            align-items: center;\n            gap: 12px;\n            margin-bottom: 24px;\n            padding-bottom: 16px;\n            border-bottom: 1px solid var(--vscode-panel-border);\n        \x7d\n        .header-icon \x7b\n            font-size: 32px;\n        \x7d\n        .header-text h1 \x7b\n            font-size: 18px;\n            font-weight: 600;\n        \x7d\n        .header-text .status \x7b\n            font-size: 14px;\n            color: "

/-- Static shell of the returned document: styles from the header color to the header icon. -/
def htmlShell1 : String :=
  ";\n            font-weight: 500;\n        \x7d\n        .card \x7b\n            background: var(--vscode-input-background);\n            border: 1px solid var(--vscode-panel-border);\n            border-radius: 8px;\n            padding: 16px;\n            margin-bottom: 12px;\n        \x7d\n        .card-title \x7b\n            font-size: 12px;\n            text-transform: uppercase;\n            letter-spacing: 0.5px;\n            color: var(--vscode-descriptionForeground);\n            margin-bottom: 8px;\n        \x7d\n        .vulnerability-name \x7b\n            font-size: 16px;\n            font-weight: 600;\n        \x7d\n        .severity-badge \x7b\n            display: inline-block;\n            padding: 4px 12px;\n            border-radius: 4px;\n            font-size: 12px;\n            font-weight: 600;\n        \x7d\n        .explanation \x7b\n            font-size: 14px;\n            line-height: 1.7;\n        \x7d\n        .patch-code \x7b\n            background: var(--vscode-textCodeBlock-background);\n            border: 1px solid var(--vscode-panel-border);\n            border-radius: 4px;\n            padding: 12px;\n            font-family: \x27Consolas\x27, \x27Monaco\x27, \x27Courier New\x27, monospace;\n            font-size: 13px;\n            white-space: pre-wrap;\n            overflow-x: auto;\n        \x7d\n        .footer \x7b\n            margin-top: 24px;\n            padding-top: 16px;\n            border-top: 1px solid var(--vscode-panel-border);\n            font-size: 12px;\n            color: var(--vscode-descriptionForeground);\n        \x7d\n    </style>\n</head>\n<body>\n    <div class=\"header\">\n        <span class=\"header-icon\">"

/-- Static shell of the returned document: markup between the header icon and the status text. -/
def htmlShell2 : String :=
  "</span>\n        <div class=\"header-text\">\n            <h1>Security Analysis Results</h1>\n            <div class=\"status\">"

/-- Static shell of the returned document: markup between the status text and the cards. -/
def htmlShell3 : String :=
  "</div>\n        </div>\n    </div>\n\n    "

/-- Static shell of the returned document: closing footer markup. -/
def htmlShell4 : String :=
  "\n\n    <div class=\"footer\">\n        <p>\uF8FF\u00FC\u00EE\u00ED AI Code Vulnerability Detector \u201A\u00C4\u00A2 Pattern-based security analysis</p>\n        <p>Note: This tool uses pattern matching and may not detect all vulnerabilities. Always conduct thorough security reviews.</p>\n    </div>\n</body>\n</html>"

/-- `getResultsHtml`: the full document returned to the webview, with
the four dynamic values interpolated into the static shell. -/
def getResultsHtml (result : Response) : String :=
  htmlShell0 ++ headerColor result.results ++ htmlShell1 ++
    statusIcon result.results ++ htmlShell2 ++ statusText result.results ++
    htmlShell3 ++ cardsHtml result.results ++ htmlShell4

/-! ## Scan-engine model

`detector.py` itself is not part of the source tree (only its caller
`extension.js` is), so the engine is modelled from the specification:
rule catalog, per-language lookup, line-indexed substring matching with
exclusion sub-patterns, span deduplication, and the final severity /
line / declaration-order sort. -/

/-- Modelled from the spec: the ordered severity enum
`{Critical, High, Medium, Low}` with total order Critical > High >
Medium > Low. -/
inductive Severity where
  | critical
  | high
  | medium
  | low
deriving Repr, DecidableEq

/-- Numeric rank realising the severity order (larger is worse). -/
def Severity.rank : Severity → Nat
  | .critical => 3
  | .high => 2
  | .medium => 1
  | .low => 0

/-- The response-payload label of a severity. -/
def Severity.label : Severity → String
  | .critical => "Critical"
  | .high => "High"
  | .medium => "Medium"
  | .low => "Low"

/-- Modelled from the spec: a detection rule of the Rule Catalog - a
substring matcher (the spec allows a token/substring test as the matcher)
with an optional exclusion sub-pattern, severity, and remediation text. -/
structure Rule where
  id : String
  language : String
  category : String
  pattern : String
  exclusion : Option String
  severity : Severity
  explanation : String
  patch : String
deriving Repr, DecidableEq

/-- Modelled from the spec: the static, declaration-ordered catalog of
rules for the two supported languages; the concrete pattern/severity
assignments are the illustrative ones of the README (the spec treats them
as configuration, only shape and ordering are load-bearing). -/
def catalog : List Rule :=
  [ { id := "py-code-injection-eval", language := "python",
      category := "Code Injection", pattern := "eval(", exclusion := none,
      severity := .critical,
      explanation := "eval() executes arbitrary expressions from input.",
      patch := "Use ast.literal_eval for data, never eval." },
    { id := "py-code-injection-exec", language := "python",
      category := "Code Injection", pattern := "exec(", exclusion := none,
      severity := .critical,
      explanation := "exec() runs arbitrary code from input.",
      patch := "Remove exec and dispatch on validated values." },
    { id := "py-sql-injection", language := "python",
      category := "SQL Injection", pattern := "execute(",
      exclusion := some "?",
      severity := .high,
      explanation := "Building SQL from strings allows injection.",
      patch := "Use parameterized queries with ? placeholders." },
    { id := "py-command-injection", language := "python",
      category := "Command Injection", pattern := "shell=True",
      exclusion := none,
      severity := .high,
      explanation := "subprocess with shell=True interprets input as shell.",
      patch := "Pass an argument list and drop shell=True." },
    { id := "py-insecure-deserialization", language := "python",
      category := "Insecure Deserialization", pattern := "pickle.loads(",
      exclusion := none,
      severity := .medium,
      explanation := "pickle.loads on untrusted data executes code.",
      patch := "Use json.loads for untrusted data." },
    { id := "py-hardcoded-credentials", language := "python",
      category := "Hardcoded Credentials", pattern := "password = \"",
      exclusion := none,
      severity := .medium,
      explanation := "Credentials embedded in source leak via the repo.",
      patch := "Read secrets from the environment or a vault." },
    { id := "js-code-injection-eval", language := "javascript",
      category := "Code Injection", pattern := "eval(", exclusion := none,
      severity := .critical,
      explanation := "eval() executes arbitrary expressions from input.",
      patch := "Use JSON.parse or a dispatch table instead." },
    { id := "js-xss-innerhtml", language := "javascript",
      category := "Cross-Site Scripting", pattern := "innerHTML",
      exclusion := none,
      severity := .high,
      explanation := "Assigning untrusted markup to innerHTML runs scripts.",
      patch := "Use textContent or sanitize the markup." },
    { id := "js-xss-document-write", language := "javascript",
      category := "Cross-Site Scripting", pattern := "document.write(",
      exclusion := none,
      severity := .high,
      explanation := "document.write with untrusted data injects markup.",
      patch := "Build DOM nodes and set textContent." },
    { id := "js-sql-injection", language := "javascript",
      category := "SQL Injection", pattern := "query(",
      exclusion := some "?",
      severity := .high,
      explanation := "Building SQL from strings allows injection.",
      patch := "Use parameterized queries with ? placeholders." },
    { id := "js-command-injection", language := "javascript",
      category := "Command Injection", pattern := "exec(",
      exclusion := none,
      severity := .high,
      explanation := "child_process.exec interprets input as shell.",
      patch := "Use execFile with an argument list." },
    { id := "js-hardcoded-credentials", language := "javascript",
      category := "Hardcoded Credentials", pattern := "password = \"",
      exclusion := none,
      severity := .medium,
      explanation := "Credentials embedded in source leak via the repo.",
      patch := "Read secrets from the environment or a vault." } ]

/-- Language-scoped catalog lookup `rulesFor`: every rule whose language
equals the argument, in declaration order; empty (never absent) for an
unrecognized language. -/
def rulesFor (rules : List Rule) (language : String) : List Rule :=
  rules.filter fun r => r.language = language

/-- Substring test on character lists: does `pat` occur inside the list? -/
def containsChars (pat : List Char) : List Char → Bool
  | [] => pat.isEmpty
  | c :: rest => pat.isPrefixOf (c :: rest) || containsChars pat rest

/-- Substring test on strings. -/
def strContains (s pat : String) : Bool :=
  containsChars pat.data s.data

/-- Splits code into its lines at newline characters (accumulator is the
current line, reversed). -/
def splitLinesAux (acc : List Char) : List Char → List String
  | [] => [String.mk acc.reverse]
  | c :: rest =>
    if c = '\n' then String.mk acc.reverse :: splitLinesAux [] rest
    else splitLinesAux (c :: acc) rest

/-- The line-indexed representation of the code (spec step 2). -/
def splitLines (code : String) : List String :=
  splitLinesAux [] code.data

/-- One candidate match: the triggering rule, its declaration index, and
the 1-based line of this occurrence. -/
structure Candidate where
  declIndex : Nat
  rule : Rule
  line : Nat
deriving Repr, DecidableEq

/-- Candidates of one rule (spec steps 3-4): one candidate per line
containing the pattern, minus lines whose matched region also satisfies
the exclusion sub-pattern. -/
def ruleCandidates (declIndex : Nat) (r : Rule) (lines : List String) :
    List Candidate :=
  lines.enum.filterMap fun p =>
    if strContains p.2 r.pattern &&
        !(match r.exclusion with
          | some e => strContains p.2 e
          | none => false) then
      some { declIndex := declIndex, rule := r, line := p.1 + 1 }
    else none

/-- All candidates of a rule list, in rule declaration order. -/
def allCandidates (rules : List Rule) (lines : List String) :
    List Candidate :=
  rules.enum.flatMap fun p => ruleCandidates p.1 p.2 lines

/-- Two candidates cover the identical span: same line and same matched
text. -/
def sameSpan (a b : Candidate) : Bool :=
  a.line == b.line && a.rule.pattern == b.rule.pattern

/-- Merges a candidate into the deduplicated accumulator (spec step 5):
a candidate on an already-seen span replaces the kept one only when its
severity is strictly higher, so first-declared wins ties. -/
def insertCandidate (acc : List Candidate) (c : Candidate) : List Candidate :=
  match acc with
  | [] => [c]
  | a :: rest =>
    if sameSpan a c then
      (if a.rule.severity.rank < c.rule.severity.rank then c else a) :: rest
    else a :: insertCandidate rest c

/-- Span deduplication over a candidate list. -/
def dedup (cands : List Candidate) : List Candidate :=
  cands.foldl insertCandidate []

/-- Renders a surviving candidate into a Finding (spec step 6). -/
def renderFinding (c : Candidate) : Finding :=
  { vulnerability := c.rule.category
    severity := c.rule.severity.label
    lines := [c.line]
    explanation := c.rule.explanation
    patch := c.rule.patch }

/-- The sort key comparison of spec step 7: severity descending, then
first line ascending, then rule declaration order. -/
def candLE (a b : Candidate) : Bool :=
  decide (b.rule.severity.rank < a.rule.severity.rank ∨
    (b.rule.severity.rank = a.rule.severity.rank ∧
      (a.line < b.line ∨ (a.line = b.line ∧ a.declIndex ≤ b.declIndex))))

/-- Inserts into a sorted list, keeping order. -/
def insertLE {α : Type} (le : α → α → Bool) (a : α) : List α → List α
  | [] => [a]
  | b :: bs => if le a b then a :: b :: bs else b :: insertLE le a bs

/-- Insertion sort by a boolean comparison. -/
def sortLE {α : Type} (le : α → α → Bool) : List α → List α
  | [] => []
  | a :: as => insertLE le a (sortLE le as)

/-- The closed set of supported languages. -/
def supportedLanguages : List String := ["python", "javascript"]

/-- Result of one analysis call: the explicit unsupported-language signal,
or a structured response. -/
inductive AnalyzeResult where
  | unsupportedLanguage (language : String)
  | ok (response : Response)
deriving Repr, DecidableEq

/-- Modelled from the spec: `analyze(code, language)` - unsupported
languages give the explicit signal; otherwise the engine matches every
catalog rule for the language against the line-indexed code, applies
exclusions, deduplicates spans, renders findings, and sorts them by
severity descending, first line ascending, then declaration order. -/
def analyze (code language : String) : AnalyzeResult :=
  if supportedLanguages.contains language then
    let rules := rulesFor catalog language
    let lines := splitLines code
    let cands := sortLE candLE (dedup (allCandidates rules lines))
    .ok { language := language, results := cands.map renderFinding }
  else
    .unsupportedLanguage language

/-- Severity rank of a response-payload severity label (spec ordering
contract Critical > High > Medium > Low). -/
def severityRank (label : String) : Nat :=
  if label = "Critical" then 3
  else if label = "High" then 2
  else if label = "Medium" then 1
  else 0

/-- First reported line of a finding (0 when no location is known). -/
def firstLineOf (f : Finding) : Nat :=
  f.lines.headD 0

/-- Modelled from the spec: the single sentinel Finding response produced
when the engine itself fails, with the failure message in `explanation`. -/
def errorResponse (language message : String) : Response :=
  { language := language
    results := [{ vulnerability := "Error", severity := "N/A", lines := [],
                  explanation := message, patch := "" }] }

/-- A finding with the same location data but every free-text field
blanked; used to state that response text cannot change the markup
structure of a rendered card. -/
def blankContent (f : Finding) : Finding :=
  { vulnerability := "", severity := "", lines := f.lines,
    explanation := "", patch := "" }

/-! ## Helper lemmas -/

theorem append_ne_of_take_ne (pre s msg : String)
    (h : List.take pre.data.length msg.data ≠ pre.data) : pre ++ s ≠ msg := by
  intro he
  apply h
  have hd : pre.data ++ s.data = msg.data := by
    rw [← String.data_append, he]
  rw [← hd, List.take_left]

theorem onClose_ne_missing {α : Type} (parse : String → Option α)
    (exitCode : Int) (stdout stderr : String) :
    onClose parse exitCode stdout stderr ≠ .rejected pythonMissingMessage := by
  unfold onClose
  split
  · cases hp : parse stdout with
    | none =>
      simp only [CloseOutcome.rejected.injEq, ne_eq]
      exact append_ne_of_take_ne "Failed to parse detector output: " stdout
        pythonMissingMessage (by decide)
    | some v => simp
  · simp only [CloseOutcome.rejected.injEq, ne_eq]
    exact append_ne_of_take_ne "Detector exited with code "
      (toString exitCode ++ ": " ++ stderr) pythonMissingMessage (by decide)

/-! ## Claim theorems -/

/-- C1: for every requested language outside the closed set
{python, javascript} (after the caller's language-ID mapping), the
analysis path signals an explicit unsupported-language condition (the
warning message in the extension, the `unsupportedLanguage` signal in the
engine) and does not run the engine or render a safe/empty-findings
result. -/
theorem unsupported_language_signalled :
    (∀ (selectedText languageId : String),
        languageMap languageId = none →
        selectedText ≠ "" →
        jsTrim selectedText ≠ "" →
        activateDispatch true selectedText languageId =
            .unsupportedLanguage ("Language \"" ++ languageId ++
              "\" is not supported. Only Python and JavaScript are currently supported.") ∧
          ∀ code language,
            activateDispatch true selectedText languageId ≠
              .runAnalysis code language) ∧
    (∀ code language,
        supportedLanguages.contains language = false →
          analyze code language = .unsupportedLanguage language) := by
  constructor
  · intro selectedText languageId hmap hne htrim
    have hcond : ¬(selectedText = "" ∨ jsTrim selectedText = "") := by
      rintro (h | h)
      · exact hne h
      · exact htrim h
    constructor
    · simp only [activateDispatch, Bool.not_true, Bool.false_eq_true, if_false,
        if_neg hcond, hmap]
    · intro code language
      simp only [activateDispatch, Bool.not_true, Bool.false_eq_true, if_false,
        if_neg hcond, hmap]
      intro h
      exact ActivateOutcome.noConfusion h
  · intro code language hsup
    unfold analyze
    rw [hsup]
    simp

/-- Witness for C1 at the concrete unsupported language `ruby`. -/
theorem unsupported_language_signalled_witness :
    activateDispatch true "puts 1" "ruby" =
        .unsupportedLanguage ("Language \"" ++ "ruby" ++
          "\" is not supported. Only Python and JavaScript are currently supported.") ∧
      analyze "x = 1" "ruby" = .unsupportedLanguage "ruby" :=
  ⟨(unsupported_language_signalled.1 "puts 1" "ruby" rfl (by decide) (by decide)).1,
    unsupported_language_signalled.2 "x = 1" "ruby" rfl⟩

/-- C4: the `close` handler resolves with the parsed stdout payload iff
the exit code is 0 and stdout parses; every non-zero exit code rejects
with a message carrying the accumulated stderr, and exit code 0 with
unparseable stdout rejects with the parse-failure message. -/
theorem close_handler_contract :
    (∀ (α : Type) (parse : String → Option α) (exitCode : Int)
        (stdout stderr : String) (value : α),
        onClose parse exitCode stdout stderr = .resolved value ↔
          exitCode = 0 ∧ parse stdout = some value) ∧
    (∀ (α : Type) (parse : String → Option α) (exitCode : Int)
        (stdout stderr : String), exitCode ≠ 0 →
        onClose parse exitCode stdout stderr =
          .rejected ("Detector exited with code " ++ toString exitCode ++
            ": " ++ stderr) ∧
          ∃ pre, onClose parse exitCode stdout stderr =
            .rejected (pre ++ stderr)) ∧
    (∀ (α : Type) (parse : String → Option α) (stdout stderr : String),
        parse stdout = none →
        onClose parse 0 stdout stderr =
          .rejected ("Failed to parse detector output: " ++ stdout)) := by
  refine ⟨?_, ?_, ?_⟩
  · intro α parse exitCode stdout stderr value
    unfold onClose
    constructor
    · intro h
      split at h
      · cases hp : parse stdout with
        | none => rw [hp] at h; exact absurd h (by simp)
        | some v =>
          rw [hp] at h
          simp only [CloseOutcome.resolved.injEq] at h
          exact ⟨by assumption, by simp [hp, h]⟩
      · exact absurd h (by simp)
    · rintro ⟨h0, hp⟩
      rw [if_pos h0, hp]
  · intro α parse exitCode stdout stderr hne
    have h : onClose parse exitCode stdout stderr =
        .rejected ("Detector exited with code " ++ toString exitCode ++
          ": " ++ stderr) := by
      unfold onClose
      rw [if_neg hne]
    refine ⟨h, "Detector exited with code " ++ toString exitCode ++ ": ", ?_⟩
    rw [h]
  · intro α parse stdout stderr hp
    unfold onClose
    rw [if_pos rfl, hp]

/-- Witness for C4 with a concrete parse function and run results. -/
theorem close_handler_contract_witness :
    (((0 : Int) = 0 ∧ (fun s => if s = "ok" then some 1 else none) "ok" = some 1) ∧
      onClose (fun s => if s = "ok" then some 1 else none) 0 "ok" "" =
        .resolved 1) ∧
    ((1 : Int) ≠ 0 ∧
      onClose (fun s => if s = "ok" then some 1 else none) 1 "out" "boom" =
        .rejected ("Detector exited with code " ++ toString (1 : Int) ++
          ": " ++ "boom")) ∧
    ((fun s => if s = "ok" then some (1 : Nat) else none) "bad" = none ∧
      onClose (fun s => if s = "ok" then some (1 : Nat) else none) 0 "bad" "" =
        .rejected ("Failed to parse detector output: " ++ "bad")) := by
  refine ⟨⟨⟨rfl, by decide⟩, ?_⟩, ⟨by decide, ?_⟩, ⟨by decide, ?_⟩⟩
  · exact (close_handler_contract.1 Nat _ 0 "ok" "" 1).2 ⟨rfl, by decide⟩
  · exact (close_handler_contract.2.1 Nat _ 1 "out" "boom" (by decide)).1
  · exact close_handler_contract.2.2 Nat _ "bad" "" (by decide)

/-- C5: the launcher tries the candidates in declared order
`python, python3, py`, advances exactly on a spawn error, and rejects
with the single `Python is not installed ...` message precisely when
every candidate spawn-errors. -/
theorem interpreter_retry_contract :
    pythonCommands = ["python", "python3", "py"] ∧
    (∀ (α : Type) (parse : String → Option α) (env : String → SpawnResult)
        (cmd : String) (rest : List String),
        env cmd = .spawnError →
          tryPythonCommand parse env (cmd :: rest) =
            tryPythonCommand parse env rest) ∧
    (∀ (α : Type) (parse : String → Option α) (env : String → SpawnResult)
        (cmd : String) (rest : List String) (exitCode : Int)
        (stdout stderr : String),
        env cmd = .closed exitCode stdout stderr →
          tryPythonCommand parse env (cmd :: rest) =
            onClose parse exitCode stdout stderr) ∧
    (∀ (α : Type) (parse : String → Option α) (env : String → SpawnResult)
        (cmds : List String),
        tryPythonCommand parse env cmds = .rejected pythonMissingMessage ↔
          ∀ cmd ∈ cmds, env cmd = .spawnError) := by
  refine ⟨rfl, ?_, ?_, ?_⟩
  · intro α parse env cmd rest h
    simp [tryPythonCommand, h]
  · intro α parse env cmd rest exitCode stdout stderr h
    simp [tryPythonCommand, h]
  · intro α parse env cmds
    induction cmds with
    | nil => simp [tryPythonCommand]
    | cons cmd rest ih =>
      constructor
      · intro h c hc
        cases henv : env cmd with
        | spawnError =>
          rw [tryPythonCommand, henv] at h
          rcases List.mem_cons.mp hc with hceq | hcr
          · rw [hceq]; exact henv
          · exact ih.mp h c hcr
        | closed exitCode stdout stderr =>
          rw [tryPythonCommand, henv] at h
          exact absurd h (onClose_ne_missing parse exitCode stdout stderr)
      · intro h
        have henv : env cmd = .spawnError := h cmd (List.mem_cons_self cmd rest)
        rw [tryPythonCommand, henv]
        exact ih.mpr fun c hc => h c (List.mem_cons_of_mem cmd hc)

/-- Witness for C5: an environment where only `py` spawns. -/
theorem interpreter_retry_contract_witness :
    ((fun c => if c = "py" then SpawnResult.closed 0 "[]" ""
        else SpawnResult.spawnError) "python" = SpawnResult.spawnError ∧
      tryPythonCommand (fun s => if s = "[]" then some 1 else none)
          (fun c => if c = "py" then SpawnResult.closed 0 "[]" ""
            else SpawnResult.spawnError) ("python" :: ["python3", "py"]) =
        tryPythonCommand (fun s => if s = "[]" then some 1 else none)
          (fun c => if c = "py" then SpawnResult.closed 0 "[]" ""
            else SpawnResult.spawnError) ["python3", "py"]) ∧
    (tryPythonCommand (fun s => if s = "[]" then some (1 : Nat) else none)
        (fun _ => SpawnResult.spawnError) pythonCommands =
          .rejected pythonMissingMessage ↔
      ∀ cmd ∈ pythonCommands, (fun _ => SpawnResult.spawnError) cmd =
        SpawnResult.spawnError) := by
  refine ⟨⟨by decide, ?_⟩, ?_⟩
  · exact interpreter_retry_contract.2.1 Nat
      (fun s => if s = "[]" then some 1 else none)
      (fun c => if c = "py" then SpawnResult.closed 0 "[]" ""
        else SpawnResult.spawnError) "python" ["python3", "py"] (by decide)
  · exact interpreter_retry_contract.2.2.2 Nat _ _ pythonCommands

/-- C10: the retry recursion terminates - at most `commands.length`
(three) spawn attempts occur, each failed attempt advances by exactly one
candidate, and the promise is settled (resolved or rejected) on every
path. -/
theorem retry_terminates :
    (∀ (env : String → SpawnResult) (cmds : List String),
        spawnAttempts env cmds ≤ cmds.length) ∧
    (∀ env, spawnAttempts env pythonCommands ≤ 3) ∧
    (∀ (env : String → SpawnResult) (cmd : String) (rest : List String),
        env cmd = .spawnError →
          spawnAttempts env (cmd :: rest) = 1 + spawnAttempts env rest) ∧
    (∀ (α : Type) (parse : String → Option α) (env : String → SpawnResult)
        (cmds : List String),
        (∃ v, tryPythonCommand parse env cmds = .resolved v) ∨
        (∃ m, tryPythonCommand parse env cmds = .rejected m)) := by
  have hlen : ∀ (env : String → SpawnResult) (cmds : List String),
      spawnAttempts env cmds ≤ cmds.length := by
    intro env cmds
    induction cmds with
    | nil => simp [spawnAttempts]
    | cons cmd rest ih =>
      rw [spawnAttempts]
      cases env cmd <;> simp only [List.length_cons] <;> omega
  refine ⟨hlen, fun env => hlen env pythonCommands, ?_, ?_⟩
  · intro env cmd rest h
    rw [spawnAttempts, h]
  · intro α parse env cmds
    induction cmds with
    | nil => exact Or.inr ⟨pythonMissingMessage, rfl⟩
    | cons cmd rest ih =>
      cases henv : env cmd with
      | spawnError => rw [tryPythonCommand, henv]; exact ih
      | closed exitCode stdout stderr =>
        rw [tryPythonCommand, henv]
        cases ho : onClose parse exitCode stdout stderr with
        | resolved v => exact Or.inl ⟨v, ho⟩
        | rejected m => exact Or.inr ⟨m, ho⟩

/-- Witness for C10: concrete attempt counts under an environment where
only the third candidate spawns. -/
theorem retry_terminates_witness :
    ((fun c => if c = "py" then SpawnResult.closed 0 "[]" ""
        else SpawnResult.spawnError) "python" = SpawnResult.spawnError ∧
      spawnAttempts
        (fun c => if c = "py" then SpawnResult.closed 0 "[]" ""
          else SpawnResult.spawnError) ("python" :: ["python3", "py"]) =
        1 + spawnAttempts
          (fun c => if c = "py" then SpawnResult.closed 0 "[]" ""
            else SpawnResult.spawnError) ["python3", "py"]) ∧
    spawnAttempts
      (fun c => if c = "py" then SpawnResult.closed 0 "[]" ""
        else SpawnResult.spawnError) pythonCommands ≤ 3 :=
  ⟨⟨by decide,
    retry_terminates.2.2.1
      (fun c => if c = "py" then SpawnResult.closed 0 "[]" ""
        else SpawnResult.spawnError) "python" ["python3", "py"] (by decide)⟩,
    retry_terminates.2.1 _⟩

/-! ## Round-trip of the request serialization -/

theorem readLiteral_append (l r : List Char) : readLiteral l (l ++ r) = some r := by
  induction l with
  | nil => rfl
  | cons c cs ih => simp [readLiteral, ih]

theorem hexToNat_hexDigit : ∀ n < 16, readJsonChars.hexToNat (hexDigit n) = n := by
  decide

theorem readJsonChars_escaped (s r : List Char) :
    readJsonChars (s.flatMap jsonEscapeChar ++ '"' :: r) = some (s, r) := by
  induction s with
  | nil =>
    rw [List.flatMap_nil, List.nil_append, readJsonChars.eq_def]
    simp
  | cons c cs ih =>
    rw [List.flatMap_cons, List.append_assoc]
    by_cases h1 : c = '"'
    · subst h1
      simp only [jsonEscapeChar, reduceIte, List.cons_append, List.nil_append]
      rw [readJsonChars.eq_def]
      simp [readJsonChars.unescapeChar, ih]
    by_cases h2 : c = '\\'
    · subst h2
      simp only [jsonEscapeChar, reduceIte, List.cons_append, List.nil_append]
      rw [readJsonChars.eq_def]
      simp [readJsonChars.unescapeChar, ih]
    by_cases h3 : c = '\x08'
    · subst h3
      simp only [jsonEscapeChar, reduceIte, List.cons_append, List.nil_append]
      rw [readJsonChars.eq_def]
      simp [readJsonChars.unescapeChar, ih]
    by_cases h4 : c = '\x09'
    · subst h4
      simp only [jsonEscapeChar, reduceIte, List.cons_append, List.nil_append]
      rw [readJsonChars.eq_def]
      simp [readJsonChars.unescapeChar, ih]
    by_cases h5 : c = '\x0a'
    · subst h5
      simp only [jsonEscapeChar, reduceIte, List.cons_append, List.nil_append]
      rw [readJsonChars.eq_def]
      simp [readJsonChars.unescapeChar, ih]
    by_cases h6 : c = '\x0c'
    · subst h6
      simp only [jsonEscapeChar, reduceIte, List.cons_append, List.nil_append]
      rw [readJsonChars.eq_def]
      simp [readJsonChars.unescapeChar, ih]
    by_cases h7 : c = '\x0d'
    · subst h7
      simp only [jsonEscapeChar, reduceIte, List.cons_append, List.nil_append]
      rw [readJsonChars.eq_def]
      simp [readJsonChars.unescapeChar, ih]
    by_cases h8 : c.toNat < 0x20
    · have hdiv : c.toNat / 16 < 16 := by omega
      have hmod : c.toNat % 16 < 16 := Nat.mod_lt _ (by omega)
      have hval : 16 * (c.toNat / 16) + c.toNat % 16 = c.toNat :=
        Nat.div_add_mod c.toNat 16
      simp only [jsonEscapeChar, if_neg h1, if_neg h2, if_neg h3, if_neg h4,
        if_neg h5, if_neg h6, if_neg h7, if_pos h8, List.cons_append,
        List.nil_append]
      rw [readJsonChars.eq_def]
      simp [ih]
      rw [hexToNat_hexDigit _ hdiv, hexToNat_hexDigit _ hmod, hval,
        Char.ofNat_toNat]
    · simp only [jsonEscapeChar, if_neg h1, if_neg h2, if_neg h3, if_neg h4,
        if_neg h5, if_neg h6, if_neg h7, if_neg h8, List.cons_append,
        List.nil_append]
      rw [readJsonChars.eq_def]
      simp [h1, h2, ih]

/-- C6: for every spawned detector process the caller performs exactly one
stdin write - the JSON serialization of an object with exactly the fields
`code` and `language` (reading the payload back recovers exactly those two
values) - and then closes the stream. -/
theorem request_payload_contract :
    (∀ code language, writeCount (stdinScript code language) = 1) ∧
    (∀ code language, stdinScript code language =
        [.write (requestPayload code language), .endStream]) ∧
    (∀ code language,
        readRequestPayload (requestPayload code language) =
          some (code, language)) := by
  refine ⟨fun _ _ => rfl, fun _ _ => rfl, ?_⟩
  intro code language
  have e1 : ("\x7b\"code\":" : String).data =
      ['\x7b', '"', 'c', 'o', 'd', 'e', '"', ':'] := rfl
  have e2 : ("\x7b\"code\":\"" : String).data =
      ['\x7b', '"', 'c', 'o', 'd', 'e', '"', ':', '"'] := rfl
  have e3 : (",\"language\":" : String).data =
      [',', '"', 'l', 'a', 'n', 'g', 'u', 'a', 'g', 'e', '"', ':'] := rfl
  have e4 : (",\"language\":\"" : String).data =
      [',', '"', 'l', 'a', 'n', 'g', 'u', 'a', 'g', 'e', '"', ':', '"'] := rfl
  have e5 : ("\"" : String).data = ['"'] := rfl
  have e6 : ("\x7d" : String).data = ['\x7d'] := rfl
  have hdata : (requestPayload code language).data =
      ("\x7b\"code\":\"" : String).data ++
        (code.data.flatMap jsonEscapeChar ++ '"' ::
          ((",\"language\":\"" : String).data ++
            (language.data.flatMap jsonEscapeChar ++ '"' :: ['\x7d']))) := by
    simp [requestPayload, jsonQuote, String.data_append, e1, e2, e3, e4, e5, e6]
  unfold readRequestPayload
  rw [hdata]
  simp only [readLiteral_append, readJsonChars_escaped, Option.some_bind]
  simp

/-- C2: a response with empty `results` renders as safe - status
`No vulnerabilities detected` and the `Code Appears Safe` card - never as
the error presentation; the renderer classifies a response as an error
only when `results` is non-empty. -/
theorem empty_results_render_safe :
    statusText [] = "No vulnerabilities detected" ∧
    isError [] = false ∧
    cardsHtml [] = safeCardsPre ++ "Code Appears Safe" ++ safeCardsPost ∧
    (∀ language : String,
        getResultsHtml { language := language, results := [] } =
          htmlShell0 ++ "#22c55e" ++ htmlShell1 ++ "‚úÖ" ++
            htmlShell2 ++ "No vulnerabilities detected" ++ htmlShell3 ++
            (safeCardsPre ++ "Code Appears Safe" ++ safeCardsPost) ++
            htmlShell4) ∧
    (∀ results : List Finding, isError results = true → results ≠ []) := by
  refine ⟨rfl, rfl, rfl, fun _ => rfl, ?_⟩
  intro results h
  cases results with
  | nil => exact absurd h (by simp [isError])
  | cons f rest => exact List.cons_ne_nil f rest

/-- Witness for C2: a response whose head is the Error sentinel is indeed
classified as an error and is non-empty. -/
theorem empty_results_render_safe_witness :
    isError [{ vulnerability := "Error", severity := "N/A", lines := [],
               explanation := "boom", patch := "" }] = true ∧
      [({ vulnerability := "Error", severity := "N/A", lines := [],
          explanation := "boom", patch := "" } : Finding)] ≠ [] :=
  ⟨rfl, empty_results_render_safe.2.2.2.2 _ rfl⟩

/-- C3: an engine failure is reported as exactly one sentinel Finding with
vulnerability `Error`, severity `N/A` and the failure message in
`explanation`; the renderer classifies a response as an analysis error iff
the first element of `results` has vulnerability `Error`. -/
theorem error_sentinel_contract :
    (∀ language message : String,
        (errorResponse language message).results =
          [{ vulnerability := "Error", severity := "N/A", lines := [],
             explanation := message, patch := "" }]) ∧
    (∀ results : List Finding,
        isError results = true ↔
          ∃ f rest, results = f :: rest ∧ f.vulnerability = "Error") := by
  refine ⟨fun _ _ => rfl, ?_⟩
  intro results
  cases results with
  | nil => simp [isError]
  | cons f rest =>
    simp only [isError, beq_iff_eq]
    constructor
    · intro h
      exact ⟨f, rest, rfl, h⟩
    · rintro ⟨g, grest, heq, hg⟩
      cases heq
      exact hg

/-! ## Escaping lemmas -/

theorem notMem_replaceChar_self (a : Char) (r s : String) (hr : a ∉ r.data) :
    a ∉ (replaceChar a r s).data := by
  simp only [replaceChar]
  intro hmem
  rcases List.mem_flatMap.mp hmem with ⟨b, _, hb⟩
  by_cases hba : b = a
  · rw [if_pos hba] at hb
    exact hr hb
  · rw [if_neg hba] at hb
    rcases List.mem_singleton.mp hb with rfl
    exact hba rfl

theorem notMem_replaceChar_of (a c : Char) (r s : String) (hr : a ∉ r.data)
    (hs : a ∉ s.data) : a ∉ (replaceChar c r s).data := by
  simp only [replaceChar]
  intro hmem
  rcases List.mem_flatMap.mp hmem with ⟨b, hbs, hb⟩
  by_cases hbc : b = c
  · rw [if_pos hbc] at hb
    exact hr hb
  · rw [if_neg hbc] at hb
    rcases List.mem_singleton.mp hb with rfl
    exact hs hbs

theorem escapeHtml_no_markup (s : String) :
    '<' ∉ (escapeHtml s).data ∧ '>' ∉ (escapeHtml s).data ∧
      '"' ∉ (escapeHtml s).data ∧ '\x27' ∉ (escapeHtml s).data := by
  unfold escapeHtml
  refine ⟨?_, ?_, ?_, ?_⟩
  · apply notMem_replaceChar_of _ _ _ _ (by decide)
    apply notMem_replaceChar_of _ _ _ _ (by decide)
    apply notMem_replaceChar_of _ _ _ _ (by decide)
    exact notMem_replaceChar_self _ _ _ (by decide)
  · apply notMem_replaceChar_of _ _ _ _ (by decide)
    apply notMem_replaceChar_of _ _ _ _ (by decide)
    exact notMem_replaceChar_self _ _ _ (by decide)
  · apply notMem_replaceChar_of _ _ _ _ (by decide)
    exact notMem_replaceChar_self _ _ _ (by decide)
  · exact notMem_replaceChar_self _ _ _ (by decide)

theorem count_lt_escapeHtml (s : String) :
    List.count '<' (escapeHtml s).data = 0 :=
  List.count_eq_zero.mpr (escapeHtml_no_markup s).1

theorem count_gt_escapeHtml (s : String) :
    List.count '>' (escapeHtml s).data = 0 :=
  List.count_eq_zero.mpr (escapeHtml_no_markup s).2.1

theorem count_quot_escapeHtml (s : String) :
    List.count '"' (escapeHtml s).data = 0 :=
  List.count_eq_zero.mpr (escapeHtml_no_markup s).2.2.1

theorem count_apos_escapeHtml (s : String) :
    List.count '\x27' (escapeHtml s).data = 0 :=
  List.count_eq_zero.mpr (escapeHtml_no_markup s).2.2.2

theorem count_lt_severityColor (sev : String) :
    List.count '<' (severityColor sev).data = 0 := by
  unfold severityColor severityColors
  split_ifs <;> decide

theorem count_gt_severityColor (sev : String) :
    List.count '>' (severityColor sev).data = 0 := by
  unfold severityColor severityColors
  split_ifs <;> decide

theorem count_quot_severityColor (sev : String) :
    List.count '"' (severityColor sev).data = 0 := by
  unfold severityColor severityColors
  split_ifs <;> decide

theorem count_apos_severityColor (sev : String) :
    List.count '\x27' (severityColor sev).data = 0 := by
  unfold severityColor severityColors
  split_ifs <;> decide

set_option maxRecDepth 8000 in
/-- C9: `escapeHtml` output never contains `<`, `>`, `"` or the
apostrophe, and every free-text response field interpolated into a
vulnerability card passes through it, so the number of markup characters
in a rendered card is invariant under the response's text fields -
response content cannot introduce raw HTML markup into the panel. -/
theorem escaped_interpolation_contract :
    (∀ s : String,
        '<' ∉ (escapeHtml s).data ∧ '>' ∉ (escapeHtml s).data ∧
          '"' ∉ (escapeHtml s).data ∧ '\x27' ∉ (escapeHtml s).data) ∧
    (∀ (index vulnCount : Nat) (vuln : Finding),
        List.count '<' (vulnCardHtml index vulnCount vuln).data =
            List.count '<'
              (vulnCardHtml index vulnCount (blankContent vuln)).data ∧
          List.count '>' (vulnCardHtml index vulnCount vuln).data =
            List.count '>'
              (vulnCardHtml index vulnCount (blankContent vuln)).data ∧
          List.count '"' (vulnCardHtml index vulnCount vuln).data =
            List.count '"'
              (vulnCardHtml index vulnCount (blankContent vuln)).data ∧
          List.count '\x27' (vulnCardHtml index vulnCount vuln).data =
            List.count '\x27'
              (vulnCardHtml index vulnCount (blankContent vuln)).data) := by
  refine ⟨escapeHtml_no_markup, ?_⟩
  intro index vulnCount vuln
  have hb1 : (blankContent vuln).vulnerability = "" := rfl
  have hb2 : (blankContent vuln).severity = "" := rfl
  have hb3 : (blankContent vuln).explanation = "" := rfl
  have hb4 : (blankContent vuln).patch = "" := rfl
  have hb5 : (blankContent vuln).lines = vuln.lines := rfl
  refine ⟨?_, ?_, ?_, ?_⟩ <;>
    simp only [vulnCardHtml, hb1, hb2, hb3, hb4, hb5, String.data_append,
      List.count_append, count_lt_escapeHtml, count_gt_escapeHtml,
      count_quot_escapeHtml, count_apos_escapeHtml, count_lt_severityColor,
      count_gt_severityColor, count_quot_severityColor,
      count_apos_severityColor, Nat.add_zero, Nat.zero_add]

/-! ## Sorting lemmas -/

theorem mem_insertLE {α : Type} (le : α → α → Bool) (a x : α) (l : List α) :
    x ∈ insertLE le a l ↔ x = a ∨ x ∈ l := by
  induction l with
  | nil => simp [insertLE]
  | cons b bs ih =>
    rw [insertLE]
    split
    · simp [List.mem_cons]
    · simp only [List.mem_cons, ih]
      tauto

theorem pairwise_insertLE {α : Type} (le : α → α → Bool)
    (htot : ∀ a b, le a b || le b a)
    (htrans : ∀ a b c, le a b = true → le b c = true → le a c = true)
    (a : α) (l : List α) (h : l.Pairwise fun x y => le x y = true) :
    (insertLE le a l).Pairwise fun x y => le x y = true := by
  induction l with
  | nil => simp [insertLE]
  | cons b bs ih =>
    rcases List.pairwise_cons.mp h with ⟨hb, hbs⟩
    rw [insertLE]
    split
    · rename_i hab
      refine List.pairwise_cons.mpr ⟨?_, h⟩
      intro x hx
      rcases List.mem_cons.mp hx with rfl | hxbs
      · exact hab
      · exact htrans a b x hab (hb x hxbs)
    · rename_i hab
      have hba : le b a = true := by
        rcases Bool.or_eq_true _ _ |>.mp (htot a b) with h1 | h1
        · exact absurd h1 hab
        · exact h1
      refine List.pairwise_cons.mpr ⟨?_, ih hbs⟩
      intro x hx
      rcases (mem_insertLE le a x bs).mp hx with rfl | hxbs
      · exact hba
      · exact hb x hxbs

theorem pairwise_sortLE {α : Type} (le : α → α → Bool)
    (htot : ∀ a b, le a b || le b a)
    (htrans : ∀ a b c, le a b = true → le b c = true → le a c = true)
    (l : List α) : (sortLE le l).Pairwise fun x y => le x y = true := by
  induction l with
  | nil => exact List.Pairwise.nil
  | cons a as ih => exact pairwise_insertLE le htot htrans a (sortLE le as) ih

theorem candLE_total (a b : Candidate) : candLE a b || candLE b a := by
  simp only [candLE, Bool.or_eq_true, decide_eq_true_eq]
  omega

theorem candLE_trans (a b c : Candidate) (h1 : candLE a b = true)
    (h2 : candLE b c = true) : candLE a c = true := by
  simp only [candLE, decide_eq_true_eq] at h1 h2 ⊢
  omega

theorem severityRank_label (sev : Severity) :
    severityRank sev.label = sev.rank := by
  cases sev <;> rfl

/-- C7: the sorting pass orders candidates by severity descending, then
first line ascending, then rule declaration order, and therefore every
analysis response lists its findings with non-increasing severity rank
and, among equal severities, non-decreasing first line. -/
theorem findings_sorted_contract :
    (∀ cands : List Candidate,
        (sortLE candLE cands).Pairwise fun a b => candLE a b = true) ∧
    (∀ (code language : String) (resp : Response),
        analyze code language = .ok resp →
          resp.results.Pairwise fun f g =>
            severityRank g.severity ≤ severityRank f.severity ∧
              (severityRank f.severity = severityRank g.severity →
                firstLineOf f ≤ firstLineOf g)) := by
  have hsorted : ∀ cands : List Candidate,
      (sortLE candLE cands).Pairwise fun a b => candLE a b = true :=
    pairwise_sortLE candLE candLE_total candLE_trans
  refine ⟨hsorted, ?_⟩
  intro code language resp h
  unfold analyze at h
  split at h
  · rcases AnalyzeResult.ok.injEq _ _ |>.mp h.symm with hresp
    rw [hresp]
    simp only [List.pairwise_map]
    refine (hsorted _).imp ?_
    intro a b hab
    simp only [candLE, decide_eq_true_eq] at hab
    simp only [renderFinding, severityRank_label, firstLineOf, List.headD_cons]
    omega
  · exact absurd h (by simp)

/-- Witness for C7: the two-finding python scenario, ordered High before
Medium with ascending lines. -/
theorem findings_sorted_contract_witness :
    analyze "subprocess.call(cmd, shell=True)\npickle.loads(data)" "python" =
      .ok { language := "python",
            results :=
              [{ vulnerability := "Command Injection", severity := "High",
                 lines := [1],
                 explanation := "subprocess with shell=True interprets input as shell.",
                 patch := "Pass an argument list and drop shell=True." },
               { vulnerability := "Insecure Deserialization",
                 severity := "Medium", lines := [2],
                 explanation := "pickle.loads on untrusted data executes code.",
                 patch := "Use json.loads for untrusted data." }] } ∧
    List.Pairwise
      (fun f g => severityRank g.severity ≤ severityRank f.severity ∧
        (severityRank f.severity = severityRank g.severity →
          firstLineOf f ≤ firstLineOf g))
      [{ vulnerability := "Command Injection", severity := "High",
         lines := [1],
         explanation := "subprocess with shell=True interprets input as shell.",
         patch := "Pass an argument list and drop shell=True." },
       { vulnerability := "Insecure Deserialization",
         severity := "Medium", lines := [2],
         explanation := "pickle.loads on untrusted data executes code.",
         patch := "Use json.loads for untrusted data." }] :=
  ⟨rfl, findings_sorted_contract.2
    "subprocess.call(cmd, shell=True)\npickle.loads(data)" "python" _ rfl⟩

/-- C8: `analyze` is a pure, deterministic function of its arguments and
the static catalog - two calls with identical arguments give identical
results (and so identical ordered finding sequences). -/
theorem analyze_deterministic :
    ∀ (code language : String) (r1 r2 : AnalyzeResult),
      analyze code language = r1 → analyze code language = r2 → r1 = r2 := by
  intro code language r1 r2 h1 h2
  rw [← h1, ← h2]

/-- Witness for C8: two evaluations of the same call coincide on a
concrete input. -/
theorem analyze_deterministic_witness :
    analyze "eval(user_input)" "python" =
      .ok { language := "python",
            results :=
              [{ vulnerability := "Code Injection", severity := "Critical",
                 lines := [1],
                 explanation := "eval() executes arbitrary expressions from input.",
                 patch := "Use ast.literal_eval for data, never eval." }] } ∧
    (AnalyzeResult.ok
        { language := "python",
          results :=
            [{ vulnerability := "Code Injection", severity := "Critical",
               lines := [1],
               explanation := "eval() executes arbitrary expressions from input.",
               patch := "Use ast.literal_eval for data, never eval." }] } =
      AnalyzeResult.ok
        { language := "python",
          results :=
            [{ vulnerability := "Code Injection", severity := "Critical",
               lines := [1],
               explanation := "eval() executes arbitrary expressions from input.",
               patch := "Use ast.literal_eval for data, never eval." }] }) :=
  ⟨rfl, analyze_deterministic "eval(user_input)" "python" _ _ rfl rfl⟩

/-- Witness for C3: the sentinel response for a concrete failure message,
and its classification as an error by the renderer. -/
theorem error_sentinel_contract_witness :
    (errorResponse "python" "boom").results =
      [{ vulnerability := "Error", severity := "N/A", lines := [],
         explanation := "boom", patch := "" }] ∧
    isError [{ vulnerability := "Error", severity := "N/A", lines := [],
               explanation := "boom", patch := "" }] = true :=
  ⟨error_sentinel_contract.1 "python" "boom",
    (error_sentinel_contract.2 _).mpr ⟨_, [], rfl, rfl⟩⟩

/-- Witness for C6: the concrete stdin script and payload round-trip for
one request. -/
theorem request_payload_contract_witness :
    stdinScript "print(1)" "python" =
      [.write (requestPayload "print(1)" "python"), .endStream] ∧
    readRequestPayload (requestPayload "print(1)" "python") =
      some ("print(1)", "python") :=
  ⟨request_payload_contract.2.1 "print(1)" "python",
    request_payload_contract.2.2 "print(1)" "python"⟩

/-- Witness for C9: a hostile payload is escaped, and its card has exactly
as many markup characters as the blank-text card. -/
theorem escaped_interpolation_contract_witness :
    '<' ∉ (escapeHtml "<script>alert(1)</script>").data ∧
    List.count '<'
        (vulnCardHtml 0 1
          { vulnerability := "<img src=x>", severity := "High",
            lines := [1], explanation := "<b>", patch := "<i>" }).data =
      List.count '<'
        (vulnCardHtml 0 1
          (blankContent
            { vulnerability := "<img src=x>", severity := "High",
              lines := [1], explanation := "<b>", patch := "<i>" })).data :=
  ⟨(escaped_interpolation_contract.1 "<script>alert(1)</script>").1,
    (escaped_interpolation_contract.2 0 1 _).1⟩

end VulnDetect
